import Mathlib

/-!
Verification of the SummonMind POC validation service (src/main.py).

The development shallowly embeds the three components of the service:

* the safe AST expression evaluator (`_eval_node` / `safe_eval`),
* the computed-field template resolver (`resolve_computed_field`) with its
  depth guard, together with a model of the external Jinja2 rendering
  primitive restricted to the minimal template contract the code relies on,
* the `/validate` pipeline (`validate_endpoint`): computed-field
  resolution, type validation with string coercion, and rule execution.

Python runtime values are modelled by the inductive `Value`; Python floats
are idealised as exact rationals (no claim below exercises floating-point
rounding).  Machine-level parsing of expression strings (Python's
ast.parse) and of rule dicts (pydantic) are external primitives; they are
modelled as parameters or as small explicitly documented functions.
-/

namespace SummonMind

/-- Python runtime values as they occur in this program: strings, ints,
floats (idealised as rationals), booleans, None, lists and string-keyed
dicts (the working record travels as a dict value inside the rule
environment). -/
inductive Value where
  | str (s : String)
  | int (n : Int)
  | float (q : Rat)
  | bool (b : Bool)
  | none
  | list (elts : List Value)
  | dict (entries : List (String × Value))
deriving Repr

/-- Association-list lookup, first binding wins; models Python dict lookup
for the string-keyed dicts used by the program. -/
def alGet {β : Type} : List (String × β) → String → Option β
  | [], _ => Option.none
  | (k, v) :: rest, key => if k == key then some v else alGet rest key

/-- Update the first binding of a key, or append a fresh binding; models
Python dict assignment d[k] = v (insertion order preserved, existing key
updated in place). -/
def alSet {β : Type} : List (String × β) → String → β → List (String × β)
  | [], key, v => [(key, v)]
  | (k, w) :: rest, key, v =>
      if k == key then (k, v) :: rest else (k, w) :: alSet rest key v

/-- Python truthiness (bool(x)): zero numbers, empty strings, empty
containers, False and None are falsy; everything else is truthy. -/
def pyTruthy : Value → Bool
  | .str s => !s.isEmpty
  | .int n => n != 0
  | .float q => q != 0
  | .bool b => b
  | .none => false
  | .list l => !l.isEmpty
  | .dict l => !l.isEmpty

/-- Python type(v).__name__ for the modelled values. -/
def pyTypeName : Value → String
  | .str _ => "str"
  | .int _ => "int"
  | .float _ => "float"
  | .bool _ => "bool"
  | .none => "NoneType"
  | .list _ => "list"
  | .dict _ => "dict"

/-- str(v) for the value shapes that templates substitute in this
program (the computed fields only ever substitute strings; the remaining
cases follow Python's repr conventions closely enough for the model). -/
def pyStr : Value → String
  | .str s => s
  | .int n => toString n
  | .float q => toString q
  | .bool b => if b then "True" else "False"
  | .none => "None"
  | .list _ => "<list>"
  | .dict _ => "<dict>"

/-- View a value as a Python int where Python would: int or bool (bool is
a subclass of int in Python, so True counts as 1 and False as 0). -/
def asInt : Value → Option Int
  | .int n => some n
  | .bool b => some (if b then 1 else 0)
  | _ => Option.none

/-- View a value as a Python number (int, bool or float), as an exact
rational. -/
def asNum : Value → Option Rat
  | .int n => some (n : Rat)
  | .bool b => some (if b then 1 else 0)
  | .float q => some q
  | _ => Option.none

mutual
/-- Python equality (operator ==): numbers (bool, int, float) compare by
numeric value, strings by content, lists and dicts structurally; values of
different categories compare unequal rather than raising. -/
def pyEq : Value → Value → Bool
  | .str a, .str b => a == b
  | .none, .none => true
  | .list a, .list b => pyEqList a b
  | .dict a, .dict b => pyEqDict a b
  | a, b =>
      match asNum a, asNum b with
      | some x, some y => x == y
      | _, _ => false

def pyEqList : List Value → List Value → Bool
  | [], [] => true
  | x :: xs, y :: ys => pyEq x y && pyEqList xs ys
  | _, _ => false

def pyEqDict : List (String × Value) → List (String × Value) → Bool
  | [], [] => true
  | (k1, v1) :: xs, (k2, v2) :: ys => k1 == k2 && pyEq v1 v2 && pyEqDict xs ys
  | _, _ => false
end

/-- Evaluation failures of the safe evaluator; each constructor mirrors a
distinct exception site in src/main.py (or a host-runtime exception that
the evaluated operation itself raises). -/
inductive EvalErr where
  /-- raise ValueError(f"Unknown name: ...") at main.py:43 -/
  | unknownName (id : String)
  /-- raise ValueError(f"Unsupported binary operator: ...") at main.py:50 -/
  | unsupportedBinOp (opName : String)
  /-- raise ValueError(f"Unsupported unary operator: ...") at main.py:56 -/
  | unsupportedUnaryOp (opName : String)
  /-- raise ValueError(f"Unsupported compare op: ...") at main.py:76 -/
  | unsupportedCmpOp (opName : String)
  /-- raise ValueError("Attribute access not allowed") at main.py:96 -/
  | attributeNotAllowed
  /-- raise ValueError("Function calls not allowed") at main.py:98 -/
  | callNotAllowed
  /-- raise ValueError(f"Unsupported AST node: ...") at main.py:99 -/
  | unsupportedNode (nodeKind : String)
  /-- raise ValueError(f"Invalid expression syntax: ...") at main.py:110,
  when ast.parse rejects the expression text -/
  | invalidSyntax (expr : String)
  /-- host TypeError raised by the applied operator (message abridged) -/
  | typeError (msg : String)
  /-- host KeyError from a dict subscript -/
  | keyError (key : String)
  /-- host IndexError from a list or string subscript -/
  | indexError
  /-- host ZeroDivisionError -/
  | zeroDivisionError
deriving Repr, DecidableEq

/-- The message text carried by the exception, as interpolated into rule
error messages (quotes and host-specific detail abridged; no claim
depends on exact punctuation). -/
def EvalErr.msg : EvalErr → String
  | .unknownName id => "Unknown name: " ++ id
  | .unsupportedBinOp o => "Unsupported binary operator: " ++ o
  | .unsupportedUnaryOp o => "Unsupported unary operator: " ++ o
  | .unsupportedCmpOp o => "Unsupported compare op: " ++ o
  | .attributeNotAllowed => "Attribute access not allowed"
  | .callNotAllowed => "Function calls not allowed"
  | .unsupportedNode k => "Unsupported AST node: " ++ k
  | .invalidSyntax e => "Invalid expression syntax: " ++ e
  | .typeError m => m
  | .keyError k => k
  | .indexError => "list index out of range"
  | .zeroDivisionError => "division by zero"

/-- Lexicographic order on character lists; models Python string <. -/
def charListLt : List Char → List Char → Bool
  | [], [] => false
  | [], _ :: _ => true
  | _ :: _, [] => false
  | a :: as, b :: bs =>
      if a < b then true else if b < a then false else charListLt as bs

mutual
/-- Python operator < (operator.lt): numeric comparison across int, bool
and float; lexicographic on strings; pairwise-then-length on lists
(elements compared with == first, Python list order semantics); any other
combination raises TypeError. -/
def pyLt : Value → Value → Except EvalErr Bool
  | .str a, .str b => .ok (charListLt a.data b.data)
  | .list a, .list b => pyLtList a b
  | a, b =>
      match asNum a, asNum b with
      | some x, some y => .ok (decide (x < y))
      | _, _ =>
          .error (.typeError ("unorderable types: " ++ pyTypeName a ++ " and " ++ pyTypeName b))

def pyLtList : List Value → List Value → Except EvalErr Bool
  | [], [] => .ok false
  | [], _ :: _ => .ok true
  | _ :: _, [] => .ok false
  | x :: xs, y :: ys =>
      if pyEq x y then pyLtList xs ys else pyLt x y
end

/-- Python operator <=: defined like < with equality allowed; mirrors
host semantics on the shapes < supports. -/
def pyLe (a b : Value) : Except EvalErr Bool :=
  match pyLt a b with
  | .error e => .error e
  | .ok lt => .ok (lt || pyEq a b)

/-- Repeat a list n times; models Python list * int. -/
def listRepeat (l : List Value) : Nat → List Value
  | 0 => []
  | n + 1 => l ++ listRepeat l n

/-- Repeat a string n times; models Python str * int. -/
def strRepeat (s : String) : Nat → String
  | 0 => ""
  | n + 1 => s ++ strRepeat s n

/-- Python floor-mod on rationals (result has the sign of the divisor,
like the % operator). -/
def ratFloorMod (a b : Rat) : Rat := a - b * ((a / b).floor : Rat)

/-- Apply one of the binary operators in the _allowed_ops table
(operator.add and friends) with Python numeric promotion: int-and-bool
operands give an int result, any float operand promotes to float, true
division always yields a float, % follows floor-division sign rules;
+ also concatenates strings and lists, * also repeats them.
String %-formatting and non-integer float exponents are outside the
idealised-rational model and are reported as TypeError (no claim touches
them). -/
def binApplyAllowed (opName : String) (intOp : Int → Int → Int)
    (ratOp : Rat → Rat → Rat) (a b : Value) : Except EvalErr Value :=
  match asInt a, asInt b with
  | some x, some y => .ok (.int (intOp x y))
  | _, _ =>
      match asNum a, asNum b with
      | some x, some y => .ok (.float (ratOp x y))
      | _, _ =>
          .error (.typeError ("unsupported operand types for " ++ opName ++ ": "
            ++ pyTypeName a ++ " and " ++ pyTypeName b))

def pyAdd : Value → Value → Except EvalErr Value
  | .str a, .str b => .ok (.str (a ++ b))
  | .list a, .list b => .ok (.list (a ++ b))
  | a, b => binApplyAllowed "+" (· + ·) (· + ·) a b

def pySub (a b : Value) : Except EvalErr Value :=
  binApplyAllowed "-" (· - ·) (· - ·) a b

def pyMul : Value → Value → Except EvalErr Value
  | .str s, v =>
      (match asInt v with
       | some n => .ok (.str (strRepeat s n.toNat))
       | Option.none => .error (.typeError "cannot multiply str by non-int"))
  | v, .str s =>
      (match asInt v with
       | some n => .ok (.str (strRepeat s n.toNat))
       | Option.none => .error (.typeError "cannot multiply str by non-int"))
  | .list l, v =>
      (match asInt v with
       | some n => .ok (.list (listRepeat l n.toNat))
       | Option.none => .error (.typeError "cannot multiply list by non-int"))
  | v, .list l =>
      (match asInt v with
       | some n => .ok (.list (listRepeat l n.toNat))
       | Option.none => .error (.typeError "cannot multiply list by non-int"))
  | a, b => binApplyAllowed "*" (· * ·) (· * ·) a b

/-- Python true division: always a float result, ZeroDivisionError on a
zero divisor. -/
def pyDiv (a b : Value) : Except EvalErr Value :=
  match asNum a, asNum b with
  | some x, some y =>
      if y == 0 then .error .zeroDivisionError else .ok (.float (x / y))
  | _, _ =>
      .error (.typeError ("unsupported operand types for /: "
        ++ pyTypeName a ++ " and " ++ pyTypeName b))

/-- Python %: floor modulo with the divisor's sign (Int.fmod on ints),
ZeroDivisionError on zero. -/
def pyMod (a b : Value) : Except EvalErr Value :=
  match asNum a, asNum b with
  | some _, some y =>
      if y == 0 then .error .zeroDivisionError
      else
        match asInt a, asInt b with
        | some x, some yi => .ok (.int (Int.fmod x yi))
        | _, _ =>
            match asNum a with
            | some xq => .ok (.float (ratFloorMod xq y))
            | Option.none => .error (.typeError "unreachable")
  | _, _ =>
      .error (.typeError ("unsupported operand types for %: "
        ++ pyTypeName a ++ " and " ++ pyTypeName b))

/-- Python **: integer result for int base and nonnegative int exponent,
float for a negative int exponent; float powers are supported for
integer-valued exponents only (an irrational result is unrepresentable in
the exact-rational idealisation and reported as TypeError; no claim
exercises that case). -/
def pyPow (a b : Value) : Except EvalErr Value :=
  match asInt a, asInt b with
  | some x, some y =>
      if 0 ≤ y then .ok (.int (x ^ y.toNat))
      else if x == 0 then .error .zeroDivisionError
      else .ok (.float (((x : Rat) ^ y.natAbs)⁻¹))
  | _, _ =>
      match asNum a, asNum b with
      | some x, some y =>
          if y.den == 1 then
            if 0 ≤ y.num then .ok (.float (x ^ y.num.toNat))
            else if x == 0 then .error .zeroDivisionError
            else .ok (.float ((x ^ y.num.natAbs)⁻¹))
          else .error (.typeError "non-integer float exponent not modelled")
      | _, _ =>
          .error (.typeError ("unsupported operand types for **: "
            ++ pyTypeName a ++ " and " ++ pyTypeName b))

/-- Binary-operator node kinds of the Python ast module (ast.BinOp.op).
Only Add, Sub, Mult, Div, Mod and Pow appear in the _allowed_ops table;
the remaining kinds (floor division, matrix multiply and every bitwise or
shift operator) are rejected at main.py:50. -/
inductive BinOpKind where
  | add | sub | mult | div | mod | pow
  | floorDiv | matMult | bitAnd | bitOr | bitXor | lShift | rShift
deriving Repr, DecidableEq

/-- ast class name, as interpolated (abridged) into error messages. -/
def BinOpKind.astName : BinOpKind → String
  | .add => "Add" | .sub => "Sub" | .mult => "Mult" | .div => "Div"
  | .mod => "Mod" | .pow => "Pow" | .floorDiv => "FloorDiv"
  | .matMult => "MatMult" | .bitAnd => "BitAnd" | .bitOr => "BitOr"
  | .bitXor => "BitXor" | .lShift => "LShift" | .rShift => "RShift"

/-- The bitwise and shift operator kinds named by the spec as disallowed. -/
def BinOpKind.isBitwise : BinOpKind → Bool
  | .bitAnd | .bitOr | .bitXor | .lShift | .rShift => true
  | _ => false

/-- Unary-operator node kinds (ast.UnaryOp.op); only UAdd and USub are in
_allowed_ops (Not and Invert are rejected at main.py:56). -/
inductive UnaryOpKind where
  | uAdd | uSub | notOp | invert
deriving Repr, DecidableEq

def UnaryOpKind.astName : UnaryOpKind → String
  | .uAdd => "UAdd" | .uSub => "USub" | .notOp => "Not" | .invert => "Invert"

/-- Boolean operator kinds (ast.BoolOp.op); the ast grammar has exactly
And and Or, so the raise at main.py:69 is unreachable and needs no
constructor. -/
inductive BoolOpKind where
  | andOp | orOp
deriving Repr, DecidableEq

/-- Comparison operator kinds (ast.Compare.ops); Eq, NotEq, Lt, LtE, Gt
and GtE are in _allowed_ops, while Is, IsNot, In and NotIn are rejected at
main.py:76. -/
inductive CmpOpKind where
  | eq | notEq | lt | ltE | gt | gtE | isOp | isNotOp | inOp | notInOp
deriving Repr, DecidableEq

def CmpOpKind.astName : CmpOpKind → String
  | .eq => "Eq" | .notEq => "NotEq" | .lt => "Lt" | .ltE => "LtE"
  | .gt => "Gt" | .gtE => "GtE" | .isOp => "Is" | .isNotOp => "IsNot"
  | .inOp => "In" | .notInOp => "NotIn"

/-- Expression syntax trees as produced by ast.parse(expr, mode="eval"):
exactly the node kinds _eval_node inspects, plus a catch-all for every
other ast node kind (handled by the raise at main.py:99).  ast.Num and
ast.Str (main.py:36-39) are legacy aliases of Constant and are collapsed
into it.  Compare keeps its ops and comparators zipped, as main.py:72
consumes them.  Call keeps the function and positional arguments (enough
to decide rejection, which inspects neither). -/
inductive Expr where
  | constant (v : Value)
  | name (id : String)
  | binOp (op : BinOpKind) (left right : Expr)
  | unaryOp (op : UnaryOpKind) (operand : Expr)
  | boolOp (op : BoolOpKind) (vals : List Expr)
  | compare (left : Expr) (pairs : List (CmpOpKind × Expr))
  | subscript (value : Expr) (index : Expr)
  | listLit (elts : List Expr)
  | attribute (value : Expr) (attr : String)
  | call (func : Expr) (args : List Expr)
  | otherNode (nodeKind : String)
deriving Repr

/-- The variable environment: name to value, as the names dict. -/
abbrev Env := List (String × Value)

/-- The _allowed_ops entry for a binary operator kind, none when the kind
is not a key of the table. -/
def binOpTable : BinOpKind → Option (Value → Value → Except EvalErr Value)
  | .add => some pyAdd
  | .sub => some pySub
  | .mult => some pyMul
  | .div => some pyDiv
  | .mod => some pyMod
  | .pow => some pyPow
  | _ => Option.none

/-- _allowed_ops[ast.UAdd] is the identity lambda at main.py:20 (not
Python unary +, which would reject non-numbers); USub is operator.neg. -/
def pyNeg (v : Value) : Except EvalErr Value :=
  match v with
  | .int n => .ok (.int (-n))
  | .bool b => .ok (.int (if b then -1 else 0))
  | .float q => .ok (.float (-q))
  | _ => .error (.typeError ("bad operand type for unary -: " ++ pyTypeName v))

def unaryOpTable : UnaryOpKind → Option (Value → Except EvalErr Value)
  | .uAdd => some (fun v => .ok v)
  | .uSub => some pyNeg
  | _ => Option.none

/-- The _allowed_ops entry for a comparison operator kind. -/
def cmpTable : CmpOpKind → Option (Value → Value → Except EvalErr Value)
  | .eq => some (fun a b => .ok (.bool (pyEq a b)))
  | .notEq => some (fun a b => .ok (.bool (!pyEq a b)))
  | .lt => some (fun a b => (pyLt a b).map .bool)
  | .ltE => some (fun a b => (pyLe a b).map .bool)
  | .gt => some (fun a b => (pyLt b a).map .bool)
  | .gtE => some (fun a b => (pyLe b a).map .bool)
  | _ => Option.none

/-- Subscript application val[key] (main.py:91): dict lookup by string key
(KeyError when absent), list and string indexing with Python negative
indices (IndexError out of range, TypeError for a non-integer index),
TypeError for a non-subscriptable container. -/
def subApply (container key : Value) : Except EvalErr Value :=
  match container with
  | .dict entries =>
      (match key with
       | .str s =>
           (match alGet entries s with
            | some v => .ok v
            | Option.none => .error (.keyError s))
       | _ => .error (.keyError (pyStr key)))
  | .list l =>
      (match asInt key with
       | some i =>
           let j : Int := if i < 0 then i + l.length else i
           if j < 0 then .error .indexError
           else
             (match l.get? j.toNat with
              | some v => .ok v
              | Option.none => .error .indexError)
       | Option.none => .error (.typeError "list indices must be integers"))
  | .str s =>
      (match asInt key with
       | some i =>
           let cs := s.data
           let j : Int := if i < 0 then i + cs.length else i
           if j < 0 then .error .indexError
           else
             (match cs.get? j.toNat with
              | some c => .ok (.str (String.mk [c]))
              | Option.none => .error .indexError)
       | Option.none => .error (.typeError "string indices must be integers"))
  | _ => .error (.typeError (pyTypeName container ++ " object is not subscriptable"))

mutual
/-- _eval_node (main.py:31-99).  Each arm mirrors one isinstance branch;
exceptions become Except.error.  The Subscript arm evaluates the index
expression (the source's Constant fast-path at main.py:85-86 returns the
same value the recursive evaluation would). -/
def eval : Expr → Env → Except EvalErr Value
  | .constant v, _ => .ok v
  | .name id, env =>
      (match alGet env id with
       | some v => .ok v
       | Option.none => .error (.unknownName id))
  | .binOp op l r, env =>
      (match eval l env with
       | .error e => .error e
       | .ok lv =>
           match eval r env with
           | .error e => .error e
           | .ok rv =>
               match binOpTable op with
               | some f => f lv rv
               | Option.none => .error (.unsupportedBinOp op.astName))
  | .unaryOp op operand, env =>
      (match eval operand env with
       | .error e => .error e
       | .ok v =>
           match unaryOpTable op with
           | some f => f v
           | Option.none => .error (.unsupportedUnaryOp op.astName))
  | .boolOp .andOp vals, env => evalAnd vals env
  | .boolOp .orOp vals, env => evalOr vals env
  | .compare l pairs, env =>
      (match eval l env with
       | .error e => .error e
       | .ok lv => evalCompare lv pairs env)
  | .subscript v idx, env =>
      (match eval v env with
       | .error e => .error e
       | .ok cv =>
           match eval idx env with
           | .error e => .error e
           | .ok kv => subApply cv kv)
  | .listLit elts, env =>
      (match evalElts elts env with
       | .error e => .error e
       | .ok vs => .ok (.list vs))
  | .attribute _ _, _ => .error .attributeNotAllowed
  | .call _ _, _ => .error .callNotAllowed
  | .otherNode kind, _ => .error (.unsupportedNode kind)

/-- The ast.And loop (main.py:60-63): return False on the first falsy
operand, True when all operands are truthy. -/
def evalAnd : List Expr → Env → Except EvalErr Value
  | [], _ => .ok (.bool true)
  | v :: rest, env =>
      (match eval v env with
       | .error e => .error e
       | .ok val =>
           if !pyTruthy val then .ok (.bool false) else evalAnd rest env)

/-- The ast.Or loop (main.py:65-68): return True on the first truthy
operand, False when all operands are falsy. -/
def evalOr : List Expr → Env → Except EvalErr Value
  | [], _ => .ok (.bool false)
  | v :: rest, env =>
      (match eval v env with
       | .error e => .error e
       | .ok val =>
           if pyTruthy val then .ok (.bool true) else evalOr rest env)

/-- The chained-comparison loop (main.py:72-80): evaluate the next
comparator, reject unsupported operator kinds, return False as soon as a
pairwise comparison fails, carry the comparator forward otherwise. -/
def evalCompare : Value → List (CmpOpKind × Expr) → Env → Except EvalErr Value
  | _, [], _ => .ok (.bool true)
  | left, (op, comparator) :: rest, env =>
      (match eval comparator env with
       | .error e => .error e
       | .ok right =>
           match cmpTable op with
           | Option.none => .error (.unsupportedCmpOp op.astName)
           | some f =>
               match f left right with
               | .error e => .error e
               | .ok res =>
                   if !pyTruthy res then .ok (.bool false)
                   else evalCompare right rest env)

/-- The list-literal comprehension at main.py:93. -/
def evalElts : List Expr → Env → Except EvalErr (List Value)
  | [], _ => .ok []
  | e :: rest, env =>
      (match eval e env with
       | .error err => .error err
       | .ok v =>
           match evalElts rest env with
           | .error err => .error err
           | .ok vs => .ok (v :: vs))
end

/-- safe_eval (main.py:101-111): parse the expression text and evaluate
its body.  Parsing is Python's external ast.parse primitive and is passed
in as a function returning none exactly when ast.parse raises
SyntaxError, which safe_eval converts to the invalid-syntax ValueError. -/
def safe_eval (parse : String → Option Expr) (expr : String) (env : Env) :
    Except EvalErr Value :=
  match parse expr with
  | Option.none => .error (.invalidSyntax expr)
  | some e => eval e env

/-- Is pat a prefix of s (character lists)? -/
def startsWithChars : List Char → List Char → Bool
  | [], _ => true
  | _ :: _, [] => false
  | p :: ps, c :: cs => p == c && startsWithChars ps cs

def hasSubstrAux (pat : List Char) : List Char → Bool
  | [] => startsWithChars pat []
  | c :: cs => startsWithChars pat (c :: cs) || hasSubstrAux pat cs

/-- Python substring containment, pat in s. -/
def strContainsSub (s pat : String) : Bool :=
  hasSubstrAux pat.data s.data

/-- The open and close placeholder delimiter characters. -/
def lbrace : Char := Char.ofNat 123
def rbrace : Char := Char.ofNat 125

/-- The doubled open placeholder marker of the template language. -/
def openMarker : String := String.mk [lbrace, lbrace]

/-- The doubled close placeholder marker. -/
def closeMarker : String := String.mk [rbrace, rbrace]

/-- The re-expansion test at main.py:128: both markers occur in the
rendered output. -/
def hasMarkers (rendered : String) : Bool :=
  strContainsSub rendered openMarker && strContainsSub rendered closeMarker

/-- Strip leading and trailing whitespace from a placeholder name. -/
def trimChars (cs : List Char) : List Char :=
  ((cs.dropWhile Char.isWhitespace).reverse.dropWhile Char.isWhitespace).reverse

/-- Modelled from the spec: the external template-rendering primitive
(Jinja2 Environment.from_string(...).render(**data), configured with
StrictUndefined at main.py:116).  Per the minimal template contract of
spec section 6, the primitive substitutes each doubly-braced placeholder
by the named variable's string value, using strict-undefined semantics: a
placeholder naming a variable absent from the mapping is a render error,
not a blank substitution.  The state argument is none while scanning
literal text and carries the accumulated placeholder name while inside a
placeholder. -/
def renderGo (d : List (String × Value)) :
    Option (List Char) → List Char → Except String (List Char)
  | Option.none, [] => .ok []
  | some _, [] => .error "unexpected end of template"
  | Option.none, [c] => .ok [c]
  | some _, [_] => .error "unexpected end of template"
  | Option.none, c1 :: c2 :: cs =>
      if c1 == lbrace && c2 == lbrace then
        renderGo d (some []) cs
      else
        (match renderGo d Option.none (c2 :: cs) with
         | .error e => .error e
         | .ok out => .ok (c1 :: out))
  | some acc, c1 :: c2 :: cs =>
      if c1 == rbrace && c2 == rbrace then
        (match alGet d (String.mk (trimChars acc)) with
         | some v =>
             (match renderGo d Option.none cs with
              | .error e => .error e
              | .ok out => .ok ((pyStr v).data ++ out))
         | Option.none =>
             .error (String.mk (trimChars acc) ++ " is undefined"))
      else
        renderGo d (some (acc ++ [c1])) (c2 :: cs)

/-- Render a template string against a data mapping (the external
primitive as invoked at main.py:123-124). -/
def jinjaRender (template : String) (d : List (String × Value)) :
    Except String String :=
  match renderGo d Option.none template.data with
  | .error e => .error e
  | .ok out => .ok (String.mk out)

/-- Failures of resolve_computed_field: the RecursionError of the depth
guard (main.py:121) and the ValueError wrapping an underlying
TemplateError (main.py:126). -/
inductive ResolveErr where
  | maxDepth
  | renderErr (msg : String)
deriving Repr, DecidableEq

/-- MAX_COMPUTE_DEPTH (main.py:117). -/
def MAX_COMPUTE_DEPTH : Nat := 5

/-- The recursion of resolve_computed_field, phrased over the remaining
depth budget so that the recursion is structural: budget 0 corresponds to
depth > MAX_COMPUTE_DEPTH, where the guard raises RecursionError; with
budget left, render the template and re-resolve the output while it still
contains both placeholder markers (main.py:128-129), spending one budget
unit per re-resolution exactly as the source spends one depth level. -/
def resolveFuel (render : String → Except String String) :
    Nat → String → Except ResolveErr String
  | 0, _ => .error .maxDepth
  | fuel + 1, template =>
      match render template with
      | .error e => .error (.renderErr ("Template rendering error: " ++ e))
      | .ok rendered =>
          if hasMarkers rendered then resolveFuel render fuel rendered
          else .ok rendered

/-- resolve_computed_field (main.py:119-130), with the external rendering
primitive passed in (the source closes over the global jinja_env and the
data mapping; callers below instantiate render with jinjaRender applied
to the data).  The source counts depth upward against MAX_COMPUTE_DEPTH;
the embedding carries the equivalent remaining budget
MAX_COMPUTE_DEPTH + 1 - depth, which is 0 exactly when depth > 5. -/
def resolve_computed_field (render : String → Except String String)
    (template_str : String) (depth : Nat := 0) : Except ResolveErr String :=
  resolveFuel render (MAX_COMPUTE_DEPTH + 1 - depth) template_str

/-- The number of render attempts resolveFuel performs (each recursive
re-resolution renders once; the depth guard itself renders nothing). -/
def resolveAttemptsFuel (render : String → Except String String) :
    Nat → String → Nat
  | 0, _ => 0
  | fuel + 1, template =>
      match render template with
      | .error _ => 1
      | .ok rendered =>
          if hasMarkers rendered then 1 + resolveAttemptsFuel render fuel rendered
          else 1

/-- Render attempts of resolve_computed_field started at a given depth. -/
def resolveAttempts (render : String → Except String String)
    (template_str : String) (depth : Nat := 0) : Nat :=
  resolveAttemptsFuel render (MAX_COMPUTE_DEPTH + 1 - depth) template_str

/-- The working record and the other string-keyed dicts of the pipeline. -/
abbrev Dict := List (String × Value)

/-- An error entry as the pipeline builds it: a small dict.  The shapes
occurring in the source are message only (computed-field errors,
main.py:174), field and message (type errors, main.py:222-225), rule and
message (rule-definition errors, main.py:243) and rule, field and message
(rule evaluation errors and failures, main.py:259,263); the rule value of
a definition error is the raw id value from the unparsed dict
(main.py:243) and the field value of a rule entry may be None. -/
abbrev ErrEntry := List (String × Value)

/-- type_matches (main.py:181-188).  The number branch is Python's
isinstance(val, (int, float)); since bool is a subclass of int in Python,
boolean values satisfy that check. -/
def type_matches (val : Value) (expected : String) : Bool :=
  if expected == "string" then
    (match val with | .str _ => true | _ => false)
  else if expected == "number" then
    (match val with | .int _ | .float _ | .bool _ => true | _ => false)
  else if expected == "boolean" then
    (match val with | .bool _ => true | _ => false)
  else false

/-- A declared field-type spec as it arrives in schema.fields: a bare tag
string, a record with string entries (the schema DSL's form, of which
only the type entry is read), or any other shape (main.py:198-199 falls
back to string for those). -/
inductive FieldSpec where
  | tag (s : String)
  | record (entries : List (String × String))
  | otherShape
deriving Repr

/-- One step of the spec normalization at main.py:192-199. -/
def normTag : FieldSpec → String
  | .tag s => s
  | .record entries =>
      (match alGet entries "type" with
       | some t => t
       | Option.none => "string")
  | .otherShape => "string"

def normalizeFieldsAux : List (String × FieldSpec) → List (String × String) →
    List (String × String)
  | [], acc => acc
  | (fname, spec) :: rest, acc => normalizeFieldsAux rest (alSet acc fname (normTag spec))

/-- The normalized_spec dict built by the loop at main.py:193-199
(insertion-ordered dict assignment per field). -/
def normalizeFields (fields : List (String × FieldSpec)) : List (String × String) :=
  normalizeFieldsAux fields []

/-- Digits of a decimal numeral. -/
def digitsToNat : List Char → Option Nat
  | [] => Option.none
  | cs => go cs 0
where
  go : List Char → Nat → Option Nat
  | [], acc => some acc
  | c :: rest, acc =>
      if c.isDigit then go rest (acc * 10 + (c.toNat - 48)) else Option.none

/-- Modelled behaviour of the Python int(str) builtin on the inputs this
program feeds it: surrounding whitespace stripped, optional sign, a
nonempty run of decimal digits; anything else raises (none).  Python also
accepts underscore separators, which no input of this service uses. -/
def pyParseInt (s : String) : Option Int :=
  match trimChars s.data with
  | [] => Option.none
  | c :: rest =>
      if c == '-' then (digitsToNat rest).map (fun n => -(n : Int))
      else if c == '+' then (digitsToNat rest).map (fun n => (n : Int))
      else (digitsToNat (c :: rest)).map (fun n => (n : Int))

/-- Split a character list at the first dot. -/
def splitAtDot : List Char → List Char × Option (List Char)
  | [] => ([], Option.none)
  | c :: rest =>
      if c == '.' then ([], some rest)
      else
        (match splitAtDot rest with
         | (before, after) => (c :: before, after))

/-- Modelled behaviour of the Python float(str) builtin on the inputs
this program feeds it (a digit string containing a decimal point):
optional sign, integer digits, an optional dot with fraction digits, with
at least one digit overall.  Exponent forms, inf and nan are accepted by
Python but never produced by this service; the result is the exact
rational the decimal numeral denotes (floats are idealised as exact
rationals throughout). -/
def pyParseFloat (s : String) : Option Rat :=
  match trimChars s.data with
  | [] => Option.none
  | c :: rest =>
      let (sign, body) : Rat × List Char :=
        if c == '-' then (-1, rest)
        else if c == '+' then (1, rest)
        else (1, c :: rest)
      match splitAtDot body with
      | (intPart, Option.none) =>
          (digitsToNat intPart).map (fun n => sign * (n : Rat))
      | ([], some fracPart) =>
          (digitsToNat fracPart).map
            (fun f => sign * (f : Rat) / ((10 : Rat) ^ fracPart.length))
      | (intPart, some []) =>
          (digitsToNat intPart).map (fun n => sign * (n : Rat))
      | (intPart, some fracPart) =>
          match digitsToNat intPart, digitsToNat fracPart with
          | some n, some f =>
              some (sign * ((n : Rat) + (f : Rat) / ((10 : Rat) ^ fracPart.length)))
          | _, _ => Option.none

/-- The number coercion attempt at main.py:207-213: float when the string
contains a dot, int otherwise; none models the swallowed exception at
main.py:214-215. -/
def coerceNumber (s : String) : Option Value :=
  if strContainsSub s "." then (pyParseFloat s).map .float
  else (pyParseInt s).map .int

/-- The type-error entry appended at main.py:222-225 (quotes around the
interpolated names omitted). -/
def typeErrEntry (fname expected : String) (val : Value) : ErrEntry :=
  [("field", .str fname),
   ("message", .str ("Field " ++ fname ++ " expected type " ++ expected
     ++ " but got " ++ pyTypeName val))]

/-- The type-validation loop with coercion (main.py:202-228): for every
normalized field present in the working record, attempt the number or
boolean string coercion, store a successful coercion back into the
record, then append a type error if the (possibly coerced) value fails
type_matches; fields absent from the record are skipped. -/
def validateTypes : List (String × String) → Dict → Dict × List ErrEntry
  | [], w => (w, [])
  | (fname, expected) :: rest, w =>
      match alGet w fname with
      | Option.none => validateTypes rest w
      | some val0 =>
          let step1 : Dict × Value :=
            if expected == "number" then
              match val0 with
              | .str s =>
                  (match coerceNumber s with
                   | some v => (alSet w fname v, v)
                   | Option.none => (w, val0))
              | _ => (w, val0)
            else (w, val0)
          let step2 : Dict × Value :=
            if expected == "boolean" then
              match step1.2 with
              | .str s =>
                  let lower := s.trim.toLower
                  if lower == "true" then (alSet step1.1 fname (.bool true), .bool true)
                  else if lower == "false" then (alSet step1.1 fname (.bool false), .bool false)
                  else step1
              | _ => step1
            else step1
          let tail := validateTypes rest step2.1
          if type_matches step2.2 expected then tail
          else (tail.1, typeErrEntry fname expected step2.2 :: tail.2)

/-- The Rule pydantic model (main.py:137-142). -/
structure Rule where
  id : String
  level : String
  field : Option String
  condition : String
  action : String
deriving Repr, DecidableEq

/-- A raw rule as it arrives in the request: a JSON-like dict. -/
abbrev RawRule := List (String × Value)

/-- Modelled behaviour of pydantic v1 coercion for a declared str field:
strings pass, numbers and booleans are coerced via str(), container
values and None are rejected. -/
def coerceToStr : Value → Option String
  | .str s => some s
  | .int n => some (toString n)
  | .float q => some (toString q)
  | .bool b => some (if b then "True" else "False")
  | _ => Option.none

def reqStrField (r : RawRule) (key : String) : Except String String :=
  match alGet r key with
  | Option.none => .error ("field required: " ++ key)
  | some v =>
      match coerceToStr v with
      | some s => .ok s
      | Option.none => .error ("str type expected: " ++ key)

def optStrField (r : RawRule) (key : String) : Except String (Option String) :=
  match alGet r key with
  | Option.none => .ok Option.none
  | some .none => .ok Option.none
  | some v =>
      match coerceToStr v with
      | some s => .ok (some s)
      | Option.none => .error ("str type expected: " ++ key)

/-- Modelled behaviour of Rule.parse_obj (main.py:240, external pydantic
primitive): the four declared string fields are required (with pydantic
v1 string coercion), field is optional and may be None; the error
message text is abridged. -/
def parseRule (r : RawRule) : Except String Rule := do
  let id ← reqStrField r "id"
  let level ← reqStrField r "level"
  let field ← optStrField r "field"
  let condition ← reqStrField r "condition"
  let action ← reqStrField r "action"
  .ok { id := id, level := level, field := field,
        condition := condition, action := action }

/-- The rule-parsing loop (main.py:238-243): invalid definitions are
collected as rule errors carrying the raw id value (or the placeholder
when the key is absent) and do not stop parsing of later rules. -/
def parseRules : List RawRule → List Rule × List ErrEntry
  | [] => ([], [])
  | r :: rest =>
      let tail := parseRules rest
      match parseRule r with
      | .ok pr => (pr :: tail.1, tail.2)
      | .error e =>
          (tail.1,
           ([("rule", (alGet r "id").getD (.str "<missing>")),
             ("message", .str ("Invalid rule definition: " ++ e))] : ErrEntry)
            :: tail.2)

def optStrVal : Option String → Value
  | some s => .str s
  | Option.none => .none

/-- The evaluation environment built per rule (main.py:253-254):
working.get(field) (None when the field name is absent or itself None)
under value, and the whole working record under data. -/
def ruleEnv (w : Dict) (fld : Option String) : Env :=
  let val : Value :=
    match fld with
    | some f => (alGet w f).getD .none
    | Option.none => .none
  [("value", val), ("data", .dict w)]

/-- The rule-execution loop (main.py:246-263): non-field levels are
skipped, an evaluation error is recorded (rule id, field, message) and
execution continues, and a validate rule whose condition is falsy records
a failure entry. -/
def execRules (parse : String → Option Expr) : List Rule → Dict → List ErrEntry
  | [], _ => []
  | r :: rest, w =>
      if r.level != "field" then execRules parse rest w
      else
        match safe_eval parse r.condition (ruleEnv w r.field) with
        | .error e =>
            ([("rule", .str r.id), ("field", optStrVal r.field),
              ("message", .str ("Rule " ++ r.id ++ " evaluation error: " ++ e.msg))] : ErrEntry)
              :: execRules parse rest w
        | .ok res =>
            if r.action == "validate" && !pyTruthy res then
              ([("rule", .str r.id), ("field", optStrVal r.field),
                ("message", .str ("Rule " ++ r.id ++ " failed: " ++ r.condition))] : ErrEntry)
                :: execRules parse rest w
            else execRules parse rest w

/-- The computed-field resolution loop (main.py:164-168): resolve each
template of the computed map, in order, against the current working
record, storing each result (a string) back into the record before the
next template is resolved; the first resolver failure aborts. -/
def resolveComputedAll : List (String × String) → Dict → Except ResolveErr Dict
  | [], w => .ok w
  | (compName, template) :: rest, w =>
      match resolve_computed_field (fun s => jinjaRender s w) template 0 with
      | .error e => .error e
      | .ok resolved => resolveComputedAll rest (alSet w compName (.str resolved))

/-- The request schema as the endpoint inspects it: presence flags for
the required version and fields keys, the declared field specs and the
computed map (schema.get with empty-dict defaults, main.py:163,178;
a missing or falsy schema value is modelled by Payload.schema = none). -/
structure Schema where
  hasVersion : Bool
  hasFields : Bool
  fields : List (String × FieldSpec)
  computed : List (String × String)

/-- The parsed request body: schema (none when absent or falsy), rules
(payload.get("rules", [])) and data (payload.get("data", {}) or {}). -/
structure Payload where
  schema : Option Schema
  rules : List RawRule
  data : List (String × Value)

/-- The possible endpoint outcomes, one constructor per return site:
the HTTPException at main.py:157, the bare error string of the depth
guard (main.py:171), an errors collection (main.py:174,232,266) and the
validatedData success (main.py:269). -/
inductive Response where
  | badRequest (detail : String)
  | errorMsg (msg : String)
  | errorList (errors : List ErrEntry)
  | validated (validatedData : Dict)

/-- validate_endpoint (main.py:149-269), parameterised by the external
expression parser used by safe_eval. -/
def validate_endpoint (parse : String → Option Expr) (p : Payload) : Response :=
  match p.schema with
  | Option.none => .badRequest "Invalid schema: version and fields required"
  | some schema =>
      if !schema.hasVersion || !schema.hasFields then
        .badRequest "Invalid schema: version and fields required"
      else
        let working := p.data
        match resolveComputedAll schema.computed working with
        | .error .maxDepth => .errorMsg "Max evaluation depth reached"
        | .error (.renderErr m) =>
            .errorList [[("message", .str ("Computed field error: " ++ m))]]
        | .ok w1 =>
            let spec := normalizeFields schema.fields
            match validateTypes spec w1 with
            | (_, e :: es) => .errorList (e :: es)
            | (w2, []) =>
                let parsed := parseRules p.rules
                let ruleErrs := parsed.2 ++ execRules parse parsed.1 w2
                match ruleErrs with
                | [] => .validated w2
                | re :: res => .errorList (re :: res)

mutual
/-- Does the expression contain a construct the spec disallows: an
attribute access, a call, or a bitwise (or shift) operator node? -/
def containsDisallowed : Expr → Bool
  | .constant _ => false
  | .name _ => false
  | .binOp op l r => op.isBitwise || containsDisallowed l || containsDisallowed r
  | .unaryOp _ e => containsDisallowed e
  | .boolOp _ vals => containsDisallowedList vals
  | .compare l pairs => containsDisallowed l || containsDisallowedPairs pairs
  | .subscript v i => containsDisallowed v || containsDisallowed i
  | .listLit elts => containsDisallowedList elts
  | .attribute _ _ => true
  | .call _ _ => true
  | .otherNode _ => false

def containsDisallowedList : List Expr → Bool
  | [] => false
  | e :: rest => containsDisallowed e || containsDisallowedList rest

def containsDisallowedPairs : List (CmpOpKind × Expr) → Bool
  | [] => false
  | (_, e) :: rest => containsDisallowed e || containsDisallowedPairs rest
end

/-- The UnsupportedConstruct family of the spec's error taxonomy: the
rejection errors of the evaluator, as opposed to UnknownVariable, syntax
errors and host runtime errors. -/
def EvalErr.isUnsupportedConstruct : EvalErr → Bool
  | .attributeNotAllowed | .callNotAllowed => true
  | .unsupportedBinOp _ | .unsupportedUnaryOp _ => true
  | .unsupportedCmpOp _ | .unsupportedNode _ => true
  | _ => false

/-- An error entry has the uniform caller-facing shape of the spec: every
key is one of field, rule, message, and a message key with a string value
is present. -/
def uniformEntry (en : ErrEntry) : Bool :=
  en.all (fun kv => kv.1 == "field" || kv.1 == "rule" || kv.1 == "message") &&
  (match alGet en "message" with
   | some (.str _) => true
   | _ => false)

/-- Shape discipline of a response: entries of an errors collection are
uniform, and the only bare error-string response is the depth-guard
message. -/
def responseUniform : Response → Prop
  | .errorList l => ∀ en ∈ l, uniformEntry en = true
  | .errorMsg m => m = "Max evaluation depth reached"
  | _ => True

/-- A concrete instance of the external ast.parse primitive covering the
expression strings used by the witnesses below; each string is mapped to
the syntax tree Python produces for it. -/
def demoParse : String → Option Expr := fun s =>
  if s == "missing > 0" then
    some (.compare (.name "missing") [(.gt, .constant (.int 0))])
  else if s == "value >= 18" then
    some (.compare (.name "value") [(.gtE, .constant (.int 18))])
  else Option.none

/-! ## Claims -/

/-- C4 counterexample.  Python parses the lowercase word false in
"false and undefined_var" as a variable name (ast.Name), not as the
boolean literal (only capitalised False is a constant), so _eval_node
looks the name up in the environment first: in an environment binding
neither name, safe_eval raises the UnknownVariable error
ValueError("Unknown name: false") for the left operand — the claim that
no UnknownVariable is raised is false on the code. -/
theorem false_and_undefined_raises_unknown :
    eval (.boolOp .andOp [.name "false", .name "undefined_var"]) []
      = .error (.unknownName "false") := rfl

/-- C4 (amended): evaluating "False and undefined_var" — with the
boolean literal False the claim intends — returns False in every
environment, in particular without raising UnknownVariable for the
right operand, because the ast.And loop of _eval_node (main.py:60-63)
returns as soon as an operand is falsy and never evaluates
undefined_var. -/
theorem and_short_circuits_skips_right (env : Env) :
    eval (.boolOp .andOp [.constant (.bool false), .name "undefined_var"]) env
      = .ok (.bool false) := rfl

/-- C1 counterexample.  The expression "0 and foo()" (Python parse:
BoolOp And over the constant 0 and a Call node) contains a disallowed
function call, yet safe_eval does not fail: the ast.And loop of
_eval_node returns False at the falsy first operand and the Call node is
silently skipped, so evaluation succeeds in every environment —
refuting the claim that every expression containing a disallowed
construct fails with UnsupportedConstruct. -/
theorem contained_call_can_be_skipped :
    containsDisallowed (.boolOp .andOp [.constant (.int 0), .call (.name "foo") []]) = true ∧
    eval (.boolOp .andOp [.constant (.int 0), .call (.name "foo") []]) []
      = .ok (.bool false) :=
  ⟨rfl, rfl⟩

/-- C1 (amended): evaluating a disallowed construct itself always fails
with an UnsupportedConstruct error and no value is ever produced for
it: an attribute-access node and a call node fail immediately in every
environment (their subexpressions are not even evaluated,
main.py:94-98), and a bitwise-operator node fails whenever its operands
evaluate successfully (main.py:48-50); evaluation of an expression
merely containing such a construct can still succeed when short-circuit
evaluation skips the construct, and an import cannot reach _eval_node at
all (ast.parse in eval mode rejects it as a syntax error). -/
theorem eval_rejects_disallowed (env : Env) (obj func : Expr) (attr : String)
    (args : List Expr) (op : BinOpKind) (l r : Expr) (lv rv : Value)
    (hop : op.isBitwise = true)
    (hl : eval l env = .ok lv) (hr : eval r env = .ok rv) :
    eval (.attribute obj attr) env = .error .attributeNotAllowed ∧
    eval (.call func args) env = .error .callNotAllowed ∧
    eval (.binOp op l r) env = .error (.unsupportedBinOp op.astName) ∧
    EvalErr.attributeNotAllowed.isUnsupportedConstruct = true ∧
    EvalErr.callNotAllowed.isUnsupportedConstruct = true ∧
    (EvalErr.unsupportedBinOp op.astName).isUnsupportedConstruct = true := by
  refine ⟨rfl, rfl, ?_, rfl, rfl, rfl⟩
  cases op <;> simp_all [eval, binOpTable, BinOpKind.isBitwise]

/-- Witness for the amended C1 at concrete inputs: data.x, f(), 1 & 2. -/
theorem eval_rejects_disallowed_witness :
    eval (.attribute (.name "data") "x") [] = .error .attributeNotAllowed ∧
    eval (.call (.name "f") []) [] = .error .callNotAllowed ∧
    eval (.binOp .bitAnd (.constant (.int 1)) (.constant (.int 2))) []
      = .error (.unsupportedBinOp BinOpKind.bitAnd.astName) ∧
    EvalErr.attributeNotAllowed.isUnsupportedConstruct = true ∧
    EvalErr.callNotAllowed.isUnsupportedConstruct = true ∧
    (EvalErr.unsupportedBinOp BinOpKind.bitAnd.astName).isUnsupportedConstruct = true :=
  eval_rejects_disallowed [] (.name "data") (.name "f") "x" []
    .bitAnd (.constant (.int 1)) (.constant (.int 2)) (.int 1) (.int 2) rfl rfl rfl

/-- C5: chained comparisons are conjunctions of pairwise comparisons
with short-circuit on the first failing pair.  "1 < 2 < 0" (Compare with
two zipped pairs) evaluates to False and "1 < 2 < 3" to True in every
environment; the third conjunct shows the loop returns False at the
failing second pair before looking at any later comparator (the trailing
pairs are arbitrary and may even reference undefined names). -/
theorem chained_comparison_semantics (env : Env) (tail : List (CmpOpKind × Expr)) :
    eval (.compare (.constant (.int 1))
        [(.lt, .constant (.int 2)), (.lt, .constant (.int 0))]) env
      = .ok (.bool false) ∧
    eval (.compare (.constant (.int 1))
        [(.lt, .constant (.int 2)), (.lt, .constant (.int 3))]) env
      = .ok (.bool true) ∧
    eval (.compare (.constant (.int 1))
        ((.lt, .constant (.int 2)) :: (.lt, .constant (.int 0)) :: tail)) env
      = .ok (.bool false) :=
  ⟨rfl, rfl, rfl⟩

/-- C2: the code accepts a boolean where the schema declares number.
type_matches uses isinstance(val, (int, float)) for the number tag
(main.py:184-185) and Python's bool is a subclass of int, so True
satisfies the check; consequently the whole pipeline validates a record
whose number-declared field holds the boolean true, reporting no type
mismatch — the code contradicts the spec's boolean/number exclusivity
requirement (the claim is right, the code is wrong). -/
theorem bool_satisfies_number_check :
    type_matches (.bool true) "number" = true ∧
    validate_endpoint (fun _ => Option.none)
      { schema := some { hasVersion := true, hasFields := true,
                         fields := [("flag", .tag "number")], computed := [] },
        rules := [], data := [("flag", .bool true)] }
      = .validated [("flag", .bool true)] :=
  ⟨rfl, rfl⟩

/-- C8: computed fields resolve in the computed map's order and each
result is stored into the working record before the next template is
resolved, so greeting sees the fullName computed just before it: with
computed fullName = "{{firstName}} {{lastName}}" and
greeting = "Hello {{fullName}}" over data firstName = "Alice",
lastName = "Wonder", the working record ends with
fullName = "Alice Wonder" and greeting = "Hello Alice Wonder". -/
theorem computed_fields_chain :
    resolveComputedAll
      [("fullName", "\x7b\x7bfirstName\x7d\x7d \x7b\x7blastName\x7d\x7d"),
       ("greeting", "Hello \x7b\x7bfullName\x7d\x7d")]
      [("firstName", .str "Alice"), ("lastName", .str "Wonder")]
    = .ok [("firstName", .str "Alice"), ("lastName", .str "Wonder"),
           ("fullName", .str "Alice Wonder"), ("greeting", .str "Hello Alice Wonder")] :=
  rfl

/-- With a renderer whose every successful output still contains both
placeholder markers, resolveFuel exhausts its budget and reports the
depth guard. -/
theorem resolveFuel_self_referential (render : String → Except String String)
    (h : ∀ s, ∃ out, render s = .ok out ∧ hasMarkers out = true) :
    ∀ fuel t, resolveFuel render fuel t = .error .maxDepth := by
  intro fuel
  induction fuel with
  | zero => intro t; rfl
  | succ n ih =>
      intro t
      obtain ⟨out, hr, hm⟩ := h t
      simp [resolveFuel, hr, hm, ih]

/-- resolveFuel renders at most as many times as it has budget. -/
theorem resolveAttemptsFuel_le (render : String → Except String String) :
    ∀ fuel t, resolveAttemptsFuel render fuel t ≤ fuel := by
  intro fuel
  induction fuel with
  | zero => intro t; exact Nat.le_refl 0
  | succ n ih =>
      intro t
      cases hr : render t with
      | error e => simp [resolveAttemptsFuel, hr]
      | ok rendered =>
          by_cases hm : hasMarkers rendered = true
          · have := Nat.succ_le_succ (ih rendered)
            simp [resolveAttemptsFuel, hr, hm, Nat.add_comm 1]
            omega
          · simp [resolveAttemptsFuel, hr, hm]

/-- C3: resolve_computed_field is a total function of its inputs (the
Lean embedding terminates on every template, data mapping and depth by
construction, mirroring the strictly decreasing depth budget of the
source), and on a self-referential template — one every rendering of
which still contains the open and close markers, such as a template
rendering to itself — resolution from the default depth 0 fails with
the depth guard's MaxDepthExceeded rather than looping, after at most 6
render attempts (one for each depth 0..5, the guard firing when depth
exceeds MAX_COMPUTE_DEPTH = 5). -/
theorem resolve_depth_guard (render : String → Except String String)
    (h : ∀ s, ∃ out, render s = .ok out ∧ hasMarkers out = true)
    (t : String) :
    resolve_computed_field render t 0 = .error .maxDepth ∧
    resolveAttempts render t 0 ≤ 6 ∧
    MAX_COMPUTE_DEPTH = 5 :=
  ⟨resolveFuel_self_referential render h (MAX_COMPUTE_DEPTH + 1 - 0) t,
   resolveAttemptsFuel_le render (MAX_COMPUTE_DEPTH + 1 - 0) t,
   rfl⟩

/-- Witness for C3: the template rendering to itself through the data
mapping A = "{{A}}" (modelled by its induced renderer) hits the guard. -/
theorem resolve_depth_guard_witness :
    resolve_computed_field (fun _ => .ok "\x7b\x7bA\x7d\x7d") "\x7b\x7bA\x7d\x7d" 0
      = .error .maxDepth ∧
    resolveAttempts (fun _ => .ok "\x7b\x7bA\x7d\x7d") "\x7b\x7bA\x7d\x7d" 0 ≤ 6 ∧
    MAX_COMPUTE_DEPTH = 5 :=
  resolve_depth_guard (fun _ => .ok "\x7b\x7bA\x7d\x7d")
    (fun _ => ⟨"\x7b\x7bA\x7d\x7d", rfl, rfl⟩) "\x7b\x7bA\x7d\x7d"

/-- C6: rule failures are isolated.  For any working record and any two
field-level rules where the first rule's condition fails to evaluate
(with any evaluation error, e.g. an unknown-name reference) and the
second rule's condition evaluates truthy under action validate, the
rule-execution loop records exactly one error entry — for the failing
rule, carrying its id, its field and a message — and the passing rule
contributes no entry. -/
theorem rule_isolation (parse : String → Option Expr) (w : Dict) (r1 r2 : Rule)
    (h1 : r1.level = "field") (h2 : r2.level = "field")
    (e : EvalErr)
    (he : safe_eval parse r1.condition (ruleEnv w r1.field) = .error e)
    (v : Value)
    (hv : safe_eval parse r2.condition (ruleEnv w r2.field) = .ok v)
    (ht : pyTruthy v = true) (ha : r2.action = "validate") :
    execRules parse [r1, r2] w =
      [[("rule", .str r1.id), ("field", optStrVal r1.field),
        ("message", .str ("Rule " ++ r1.id ++ " evaluation error: " ++ e.msg))]] := by
  simp [execRules, h1, h2, he, hv, ht, ha]

/-- Witness for C6: the first rule references the unknown name missing,
the second passes (value 25 is at least 18); exactly the first rule's
evaluation-error entry is recorded. -/
theorem rule_isolation_witness :
    execRules demoParse
      [{ id := "r1", level := "field", field := some "age",
         condition := "missing > 0", action := "validate" },
       { id := "r2", level := "field", field := some "age",
         condition := "value >= 18", action := "validate" }]
      [("age", .int 25)]
    = [[("rule", .str "r1"), ("field", optStrVal (some "age")),
        ("message", .str ("Rule " ++ "r1" ++ " evaluation error: "
          ++ (EvalErr.unknownName "missing").msg))]] :=
  rule_isolation demoParse [("age", .int 25)]
    { id := "r1", level := "field", field := some "age",
      condition := "missing > 0", action := "validate" }
    { id := "r2", level := "field", field := some "age",
      condition := "value >= 18", action := "validate" }
    rfl rfl (.unknownName "missing") rfl (.bool true) rfl rfl rfl

/-- C7: the number coercion is value-correct and the type-validation
stage is idempotent on its result.  For any field name declared number:
the string "42" (no decimal point) is replaced by the integer 42 with no
error reported; re-running the stage on the already-coerced record
changes nothing and reports no errors; and a string with a decimal
point, "42.5", is parsed as a float instead. -/
theorem number_coercion_idempotent (f : String) :
    validateTypes [(f, "number")] [(f, .str "42")] = ([(f, .int 42)], []) ∧
    validateTypes [(f, "number")] [(f, .int 42)] = ([(f, .int 42)], []) ∧
    validateTypes [(f, "number")] [(f, .str "42.5")] = ([(f, .float (85/2))], []) := by
  refine ⟨?_, ?_, ?_⟩ <;>
    simp [validateTypes, alGet, alSet, coerceNumber, strContainsSub, hasSubstrAux,
      startsWithChars, pyParseInt, pyParseFloat, trimChars, splitAtDot,
      digitsToNat, digitsToNat.go, type_matches, typeErrEntry]
  norm_num

/-- Every entry the type-validation stage collects is a uniform
field-and-message entry. -/
theorem validateTypes_entries_uniform :
    ∀ (spec : List (String × String)) (w : Dict) (en : ErrEntry),
      en ∈ (validateTypes spec w).2 → uniformEntry en = true := by
  intro spec
  induction spec with
  | nil => intro w en h; simp [validateTypes] at h
  | cons hd tl ih =>
      obtain ⟨f, e⟩ := hd
      intro w en h
      simp only [validateTypes] at h
      repeat' split at h
      all_goals try dsimp only at h
      all_goals
        first
        | exact ih _ en h
        | (cases List.mem_cons.mp h with
           | inl h1 => subst h1; rfl
           | inr h1 => exact ih _ en h1)

/-- Every rule-definition error entry is a uniform rule-and-message
entry (its rule value is the raw id value, of any shape). -/
theorem parseRules_entries_uniform :
    ∀ (rules : List RawRule) (en : ErrEntry),
      en ∈ (parseRules rules).2 → uniformEntry en = true := by
  intro rules
  induction rules with
  | nil => intro en h; simp [parseRules] at h
  | cons r rest ih =>
      intro en h
      simp only [parseRules] at h
      split at h
      · exact ih en h
      · rcases List.mem_cons.mp h with h1 | h1
        · subst h1; rfl
        · exact ih en h1

/-- Every rule-execution error entry (evaluation error or rule failure)
is a uniform rule, field and message entry. -/
theorem execRules_entries_uniform (parse : String → Option Expr) :
    ∀ (rules : List Rule) (w : Dict) (en : ErrEntry),
      en ∈ execRules parse rules w → uniformEntry en = true := by
  intro rules
  induction rules with
  | nil => intro w en h; simp [execRules] at h
  | cons r rest ih =>
      intro w en h
      simp only [execRules] at h
      split at h
      · exact ih w en h
      · split at h
        · rcases List.mem_cons.mp h with h1 | h1
          · subst h1; rfl
          · exact ih w en h1
        · split at h
          · rcases List.mem_cons.mp h with h1 | h1
            · subst h1; rfl
            · exact ih w en h1
          · exact ih w en h

/-- C9 counterexample.  A MaxDepthExceeded failure is reported to the
caller as the bare top-level string response error = "Max evaluation
depth reached" (main.py:171), not as an error entry of the uniform
shape with a message key: with a self-referential computed field the
pipeline returns the errorMsg response, refuting uniformity across all
failure sources. -/
theorem max_depth_reported_as_bare_error :
    validate_endpoint (fun _ => Option.none)
      { schema := some { hasVersion := true, hasFields := true, fields := [],
                         computed := [("sel", "\x7b\x7bA\x7d\x7d")] },
        rules := [], data := [("A", .str "\x7b\x7bA\x7d\x7d")] }
    = .errorMsg "Max evaluation depth reached" := rfl

/-- C9 (amended): every failure the pipeline reports through an errors
collection — computed-field render failures, type mismatches,
rule-definition errors, rule evaluation errors and rule failures — is an
entry of the uniform shape (keys among field, rule, message; a string
message always present); the MaxDepthExceeded failure alone is returned
as a single top-level error string instead of an entry collection. -/
theorem pipeline_errors_uniform (parse : String → Option Expr) (p : Payload) :
    responseUniform (validate_endpoint parse p) := by
  rcases p with ⟨oschema, rules, data⟩
  rcases oschema with _ | schema
  · trivial
  · rcases schema with ⟨hv, hf, fields, computed⟩
    by_cases hadm : (!hv || !hf) = true
    · simp [validate_endpoint, hadm, responseUniform]
    · simp only [validate_endpoint, hadm, if_false, Bool.false_eq_true, if_neg,
        not_false_eq_true]
      cases hres : resolveComputedAll computed data with
      | error e =>
          cases e with
          | maxDepth => exact rfl
          | renderErr m =>
              intro en h
              rcases List.mem_singleton.mp h with h1
              subst h1; rfl
      | ok w1 =>
          dsimp only
          cases hVT : validateTypes (normalizeFields fields) w1 with
          | mk w2 errs =>
              cases errs with
              | cons e es =>
                  intro en h
                  have h2 : en ∈ (validateTypes (normalizeFields fields) w1).2 := by
                    rw [hVT]; exact h
                  exact validateTypes_entries_uniform _ _ en h2
              | nil =>
                  dsimp only
                  cases hRE : (parseRules rules).2 ++
                      execRules parse (parseRules rules).1 w2 with
                  | nil => trivial
                  | cons re res =>
                      intro en h
                      have h2 : en ∈ (parseRules rules).2 ++
                          execRules parse (parseRules rules).1 w2 := by
                        rw [hRE]; exact h
                      rcases List.mem_append.mp h2 with h3 | h3
                      · exact parseRules_entries_uniform rules en h3
                      · exact execRules_entries_uniform parse _ w2 en h3

/-- Setting one key leaves lookups of every other key unchanged. -/
theorem alGet_alSet_ne {β : Type} (d : List (String × β)) (name k : String) (v : β)
    (h : ¬ k = name) : alGet (alSet d name v) k = alGet d k := by
  induction d with
  | nil =>
      have h2 : (name == k) = false := by
        simp only [beq_eq_false_iff_ne, ne_eq]
        exact fun hc => h hc.symm
      simp [alGet, alSet, h2]
  | cons hd tl ih =>
      obtain ⟨k2, v2⟩ := hd
      by_cases hk : (k2 == name) = true
      · have hkk : (k2 == k) = false := by
          simp only [beq_iff_eq] at hk
          simp only [beq_eq_false_iff_ne, ne_eq]
          exact fun hc => h ((hc.symm.trans hk).symm ▸ rfl)
        simp [alSet, hk, alGet, hkk]
      · simp only [alSet, hk, if_false, Bool.false_eq_true]
        by_cases hk2 : (k2 == k) = true <;> simp [alGet, hk2, ih]

/-- Computed-field resolution writes only the computed names: every
other key of the working record keeps its binding. -/
theorem resolveComputedAll_frame :
    ∀ (comps : List (String × String)) (w w' : Dict),
      resolveComputedAll comps w = .ok w' →
      ∀ k, (∀ c ∈ comps, ¬ c.1 = k) → alGet w' k = alGet w k := by
  intro comps
  induction comps with
  | nil =>
      intro w w' hres k _
      simp only [resolveComputedAll] at hres
      cases hres; rfl
  | cons c rest ih =>
      obtain ⟨cname, tmpl⟩ := c
      intro w w' hres k hk
      simp only [resolveComputedAll] at hres
      cases hr : resolve_computed_field (fun s => jinjaRender s w) tmpl 0 with
      | error e => rw [hr] at hres; cases hres
      | ok resolved =>
          rw [hr] at hres
          have h1 := ih (alSet w cname (.str resolved)) w' hres k
            (fun c hc => hk c (List.mem_cons_of_mem _ hc))
          have h2 : ¬ k = cname :=
            fun hcc => (hk (cname, tmpl) (List.mem_cons_self _ _)) hcc.symm
          rw [h1, alGet_alSet_ne _ _ _ _ h2]

/-- Type validation writes only the declared field names: every key
outside the normalized spec keeps its binding in the coerced record. -/
theorem validateTypes_frame :
    ∀ (spec : List (String × String)) (w : Dict) (k : String),
      (∀ s ∈ spec, ¬ s.1 = k) → alGet (validateTypes spec w).1 k = alGet w k := by
  intro spec
  induction spec with
  | nil => intro w k _; rfl
  | cons hd tl ih =>
      obtain ⟨f, e⟩ := hd
      intro w k hk
      have hfk : ¬ k = f := fun hc => (hk (f, e) (List.mem_cons_self _ _)) hc.symm
      have htl : ∀ s ∈ tl, ¬ s.1 = k := fun s hs => hk s (List.mem_cons_of_mem _ hs)
      simp only [validateTypes]
      repeat' split
      all_goals try dsimp only
      all_goals rw [ih _ k htl]
      all_goals simp [alGet_alSet_ne, hfk]

theorem alSet_keys {β : Type} :
    ∀ (d : List (String × β)) (name : String) (v : β) (k : String),
      k ∈ (alSet d name v).map Prod.fst → k = name ∨ k ∈ d.map Prod.fst := by
  intro d
  induction d with
  | nil => intro name v k h; simp [alSet] at h; exact Or.inl h
  | cons hd tl ih =>
      obtain ⟨k2, v2⟩ := hd
      intro name v k h
      by_cases hk : (k2 == name) = true
      · have hk2n : k2 = name := by simpa [beq_iff_eq] using hk
        simp only [alSet, hk, if_true, List.map_cons] at h
        rcases List.mem_cons.mp h with h1 | h1
        · exact Or.inl (h1.trans hk2n)
        · right; simp [h1]
      · simp only [alSet, hk, if_false, Bool.false_eq_true, List.map_cons] at h
        rcases List.mem_cons.mp h with h1 | h1
        · right; simp [h1]
        · rcases ih name v k h1 with h2 | h2
          · exact Or.inl h2
          · right; simp [h2]

theorem normalizeFieldsAux_keys :
    ∀ (fields : List (String × FieldSpec)) (acc : List (String × String)) (k : String),
      k ∈ (normalizeFieldsAux fields acc).map Prod.fst →
      k ∈ acc.map Prod.fst ∨ k ∈ fields.map Prod.fst := by
  intro fields
  induction fields with
  | nil => intro acc k h; exact Or.inl h
  | cons hd rest ih =>
      obtain ⟨f, s⟩ := hd
      intro acc k h
      rcases ih (alSet acc f (normTag s)) k h with h1 | h1
      · rcases alSet_keys acc f (normTag s) k h1 with h2 | h2
        · subst h2; right; simp
        · exact Or.inl h2
      · right; simp [h1]

/-- A key avoided by every declared field is avoided by every entry of
the normalized spec. -/
theorem normalizeFields_no_key (fields : List (String × FieldSpec)) (k : String)
    (h : ∀ fv ∈ fields, ¬ fv.1 = k) :
    ∀ s ∈ normalizeFields fields, ¬ s.1 = k := by
  intro s hs hc
  have hmem : s.1 ∈ (normalizeFieldsAux fields []).map Prod.fst :=
    List.mem_map_of_mem _ hs
  rcases normalizeFieldsAux_keys fields [] s.1 hmem with h1 | h1
  · simp at h1
  · rcases List.mem_map.mp h1 with ⟨fv, hfv, hfst⟩
    exact h fv hfv (hfst.trans hc)

/-- C10: frame property of the success path.  Whenever the pipeline
returns validatedData, every key of the input data that is neither
declared in schema.fields nor named in schema.computed appears in the
result with its original binding: computed-field resolution writes only
computed names, type coercion writes only declared field names, and rule
execution never writes to the working record (the rule loop only reads
it, so the record returned is the one the type stage produced). -/
theorem untouched_keys_pass_through (parse : String → Option Expr) (p : Payload)
    (s : Schema) (hs : p.schema = some s) (w : Dict) (k : String)
    (hw : validate_endpoint parse p = .validated w)
    (hc : ∀ c ∈ s.computed, ¬ c.1 = k)
    (hf : ∀ fv ∈ s.fields, ¬ fv.1 = k) :
    alGet w k = alGet p.data k := by
  rcases p with ⟨oschema, rules, data⟩
  dsimp only at hs
  subst hs
  dsimp only
  simp only [validate_endpoint] at hw
  by_cases hadm : (!s.hasVersion || !s.hasFields) = true
  · rw [if_pos hadm] at hw; cases hw
  · rw [if_neg hadm] at hw
    cases hres : resolveComputedAll s.computed data with
    | error e => rw [hres] at hw; cases e <;> dsimp only at hw <;> cases hw
    | ok w1 =>
        rw [hres] at hw
        dsimp only at hw
        cases hVT : validateTypes (normalizeFields s.fields) w1 with
        | mk w2 errs =>
            rw [hVT] at hw
            cases errs with
            | cons e es => dsimp only at hw; cases hw
            | nil =>
                dsimp only at hw
                cases hRE : (parseRules rules).2 ++
                    execRules parse (parseRules rules).1 w2 with
                | cons re res => rw [hRE] at hw; dsimp only at hw; cases hw
                | nil =>
                    rw [hRE] at hw
                    dsimp only at hw
                    have hww : w2 = w := by injection hw
                    subst hww
                    have hstep2 : alGet w2 k = alGet w1 k := by
                      have := validateTypes_frame (normalizeFields s.fields) w1 k
                        (normalizeFields_no_key s.fields k hf)
                      rw [hVT] at this
                      exact this
                    have hstep1 : alGet w1 k = alGet data k :=
                      resolveComputedAll_frame s.computed data w1 hres k hc
                    exact hstep2.trans hstep1

/-- Witness for C10: the extra input key, neither declared nor
computed, survives unchanged into the validated record. -/
theorem untouched_keys_pass_through_witness :
    alGet [("name", Value.str "Bob"), ("extra", Value.int 7),
           ("greet", Value.str "Hi Bob")] "extra"
      = alGet [("name", Value.str "Bob"), ("extra", Value.int 7)] "extra" :=
  untouched_keys_pass_through (fun _ => Option.none)
    { schema := some { hasVersion := true, hasFields := true,
                       fields := [("age", .tag "number")],
                       computed := [("greet", "Hi \x7b\x7bname\x7d\x7d")] },
      rules := [],
      data := [("name", .str "Bob"), ("extra", .int 7)] }
    { hasVersion := true, hasFields := true,
      fields := [("age", .tag "number")],
      computed := [("greet", "Hi \x7b\x7bname\x7d\x7d")] }
    rfl
    [("name", Value.str "Bob"), ("extra", Value.int 7), ("greet", Value.str "Hi Bob")]
    "extra"
    rfl
    (by intro c hcm; fin_cases hcm; decide)
    (by intro fv hfm; fin_cases hfm; decide)

end SummonMind
